import Mathlib

/-!
Verification development for the text relay pipeline and the Dify workflow
adapter (repository Lhanman/lhan-api, files src/relay/relay-text.go and
src/relay/channel/dify/relay-dify.go).

The Go code is shallowly embedded: every pure computation becomes a Lean
function, the ledger side effects become explicit state passing on a small
ledger record, and the external collaborators (persistent store, token
counter, HTTP client) become parameters or are modelled from the
specification where their code is not part of the provided sources.
Decimal arithmetic (github.com/shopspring/decimal, arbitrary precision,
exact addition, subtraction and multiplication) is embedded as rational
arithmetic; decimal Round with zero places rounds half away from zero.
-/

/- ===================== Quota ledger and pre-consume ===================== -/

/-- The two mutable balances the relay touches for one request: the user
balance and the token balance.  The external store (package model and
package service in the repository) performs the atomic updates; here the
effect of a successful update is applied directly. -/
structure Ledger where
  userBalance : Int
  tokenBalance : Int
deriving DecidableEq, Repr

/-- Outcome of preConsumeQuota, src/relay/relay-text.go lines 310-351:
either a typed error (code and HTTP status) or success carrying the
possibly reduced pre-consumed amount. -/
inductive PreConsumeOutcome where
  | fail (code : String) (status : Nat)
  | ok (preConsumed : Int)
deriving DecidableEq, Repr

/-- Trust heuristic of preConsumeQuota (lines 322-338): when the user
balance exceeds 100 times the pre-consumed amount and either the token is
unlimited or the token quota exceeds 100 times the pre-consumed amount,
the pre-consumed amount is reset to 0.  The source tests the negated
unlimited flag first; the branches are reordered here without changing
the decision. -/
def trustedPreQuota (userQuota preConsumedQuota : Int) (tokenUnlimited : Bool) (tokenQuota : Int) : Int :=
  if 100 * preConsumedQuota < userQuota then
    if tokenUnlimited then 0
    else if 100 * preConsumedQuota < tokenQuota then 0
    else preConsumedQuota
  else preConsumedQuota

/-- preConsumeQuota, src/relay/relay-text.go lines 310-351.  The external
store reads and writes (model.GetUserQuota, service.PreConsumeTokenQuota,
model.DecreaseUserQuota) are modelled as succeeding: userQuota is the
value the store returns, and a positive final pre-consumed amount debits
the token ledger and then the user ledger by that amount. -/
def preConsumeQuota (userQuota preConsumedQuota : Int) (tokenUnlimited : Bool) (tokenQuota : Int) (L : Ledger) : PreConsumeOutcome × Ledger :=
  if userQuota ≤ 0 then
    (PreConsumeOutcome.fail ("insufficient_user_quota") 403, L)
  else if userQuota - preConsumedQuota < 0 then
    (PreConsumeOutcome.fail ("insufficient_user_quota") 403, L)
  else
    let pre := trustedPreQuota userQuota preConsumedQuota tokenUnlimited tokenQuota
    if 0 < pre then
      (PreConsumeOutcome.ok pre,
        { userBalance := L.userBalance - pre, tokenBalance := L.tokenBalance - pre })
    else
      (PreConsumeOutcome.ok pre, L)

/-- returnPreConsumedQuota, src/relay/relay-text.go lines 353-364: when
the pre-consumed quota is nonzero the deferred hook posts a refund of the
whole amount.  Modelled from the spec: service.PostConsumeQuota is not
under src/; per the spec the hook asynchronously credits the pre-consumed
quota back to the user and to the token, so posting the negative delta
adds the amount to both balances. -/
def returnPreConsumedQuota (preConsumedQuota : Int) (L : Ledger) : Ledger :=
  if preConsumedQuota ≠ 0 then
    { userBalance := L.userBalance + preConsumedQuota,
      tokenBalance := L.tokenBalance + preConsumedQuota }
  else L

/- ===================== Quota settlement ===================== -/

/-- PriceData as consumed by postConsumeQuota (helper.PriceData in the
repository): the pricing resolver multipliers.  Decimal values are
embedded as rationals. -/
structure PriceData where
  modelRatio : ℚ
  groupRatio : ℚ
  completionRatio : ℚ
  cacheRatio : ℚ
  imageRatio : ℚ
  modelPrice : ℚ
  usePrice : Bool
deriving DecidableEq, Repr

/-- The per-settlement inputs of postConsumeQuota, src/relay/relay-text.go
lines 366-524: the usage token counts, the pre-consumed quota, the quota
already attributed to the built-in web-search and file-search tools
(both zero when RelayInfo carries no responses usage info), the
quota-per-unit conversion constant and the log line built from the
ratios. -/
structure SettleInput where
  promptTokens : Int
  completionTokens : Int
  cacheTokens : Int
  imageTokens : Int
  preConsumedQuota : Int
  webSearchQuota : ℚ
  fileSearchQuota : ℚ
  quotaPerUnit : ℚ
  logBase : String
deriving DecidableEq, Repr

/-- decimal.Round with zero places (shopspring/decimal): round to the
nearest integer, ties away from zero. -/
def roundDec (q : ℚ) : Int :=
  if 0 ≤ q then ⌊q + 1 / 2⌋ else -⌊-q + 1 / 2⌋

/-- The ratio-priced quota product of postConsumeQuota, src/relay/relay-text.go
lines 436-448, translated term by term: non-cached plus cached times the
cache ratio (replaced by the image variant when image tokens are present),
plus completion times the completion ratio, all multiplied by
modelRatio * groupRatio. -/
def rawRatioQuota (pd : PriceData) (inp : SettleInput) : ℚ :=
  let nonCachedTokens := (inp.promptTokens : ℚ) - (inp.cacheTokens : ℚ)
  let cachedTokensWithRatio := (inp.cacheTokens : ℚ) * pd.cacheRatio
  let promptQuota0 := nonCachedTokens + cachedTokensWithRatio
  let promptQuota :=
    if 0 < inp.imageTokens then
      ((inp.promptTokens : ℚ) - (inp.imageTokens : ℚ)) + (inp.imageTokens : ℚ) * pd.imageRatio
    else promptQuota0
  let completionQuota := (inp.completionTokens : ℚ) * pd.completionRatio
  (promptQuota + completionQuota) * (pd.modelRatio * pd.groupRatio)

/-- quotaCalculateDecimal at src/relay/relay-text.go line 460: the
ratio-priced product clamped to 1 when the ratio is nonzero and the
product is not positive, or the fixed price path, plus the tool quotas. -/
def quotaCalculateDecimal (pd : PriceData) (inp : SettleInput) : ℚ :=
  let base :=
    if pd.usePrice = false then
      let q := rawRatioQuota pd inp
      if pd.modelRatio * pd.groupRatio ≠ 0 ∧ q ≤ 0 then 1 else q
    else
      pd.modelPrice * inp.quotaPerUnit * pd.groupRatio
  base + inp.webSearchQuota + inp.fileSearchQuota

/-- Observable outcome of postConsumeQuota: the rounded quota as computed
at line 460 (quotaCalculated), the final quota after the zero-token
guard, the total token count, whether and with which content the
consumption log row is emitted, whether the user and channel used-quota
counters are updated, and the delta handed to service.PostConsumeQuota. -/
structure SettleResult where
  quotaCalculated : Int
  quota : Int
  totalTokens : Int
  logEmitted : Bool
  logContent : String
  userUsedQuotaUpdated : Bool
  quotaDelta : Int
deriving DecidableEq, Repr

/-- postConsumeQuota, src/relay/relay-text.go lines 366-524, for a
non-nil usage: round the decimal quota, then apply the zero-token guard
(total tokens zero forces quota 0, appends the upstream-timeout
annotation to the log content and skips the used-quota updates), compute
the settlement delta, and always record the consumption log row. -/
def postConsumeQuota (pd : PriceData) (inp : SettleInput) : SettleResult :=
  let qc := roundDec (quotaCalculateDecimal pd inp)
  let total := inp.promptTokens + inp.completionTokens
  if total = 0 then
    { quotaCalculated := qc, quota := 0, totalTokens := total,
      logEmitted := true,
      logContent := inp.logBase ++ ("（可能是上游超时）"),
      userUsedQuotaUpdated := false,
      quotaDelta := 0 - inp.preConsumedQuota }
  else
    { quotaCalculated := qc, quota := qc, totalTokens := total,
      logEmitted := true,
      logContent := inp.logBase,
      userUsedQuotaUpdated := true,
      quotaDelta := qc - inp.preConsumedQuota }

/-- The token ledger posting performed after settlement when the delta is
nonzero (src/relay/relay-text.go lines 483-489).  Modelled from the spec:
service.PostConsumeQuota is not under src/; per the spec the settlement
posts the delta final minus pre-consumed to the token ledger, so a
positive delta decreases the balance and a negative delta refunds it. -/
def applyQuotaDelta (delta : Int) (tokenBalance : Int) : Int :=
  if delta ≠ 0 then tokenBalance - delta else tokenBalance

/-- The quota formula exactly as the specification words it for claim C3:
((prompt - cached) + cached * cache-ratio + completion * completion-ratio)
multiplied by model-ratio and group-ratio, with the prompt part replaced
by (prompt - image) + image * image-ratio when image tokens are present.
This definition follows the words of the spec and is compared against the
source translation rawRatioQuota. -/
def specQuotaFormula (pd : PriceData) (inp : SettleInput) : ℚ :=
  let promptPart : ℚ :=
    if 0 < inp.imageTokens then
      ((inp.promptTokens : ℚ) - (inp.imageTokens : ℚ)) + (inp.imageTokens : ℚ) * pd.imageRatio
    else
      ((inp.promptTokens : ℚ) - (inp.cacheTokens : ℚ)) + (inp.cacheTokens : ℚ) * pd.cacheRatio
  (promptPart + (inp.completionTokens : ℚ) * pd.completionRatio) * pd.modelRatio * pd.groupRatio

/- ===================== Request validation ===================== -/

/-- The media part variants of dto.MediaContent: text, or an image
reference that is either remote (http or https URL) or a local data URI,
with an optional MIME type. -/
inductive MediaPart where
  | text (t : String)
  | imageUrl (url : String) (mimeType : String) (remote : Bool)
deriving DecidableEq, Repr

/-- Message content: either a plain string or an ordered list of media
parts (dto.Message in the repository). -/
inductive MsgContent where
  | str (s : String)
  | parts (ps : List MediaPart)
deriving DecidableEq, Repr

/-- A chat message: role plus content. -/
structure Message where
  role : String
  content : MsgContent
deriving DecidableEq, Repr

/-- Relay modes of relayconstant referenced by the validator. -/
inductive RelayMode where
  | chatCompletions
  | completions
  | embeddings
  | moderations
  | edits
  | other
deriving DecidableEq, Repr

/-- dto.GeneralOpenAIRequest, restricted to the fields the validator and
the adapters read.  The Go Input field is an interface that the validator
compares against nil and the empty string; it is embedded as an optional
string. -/
structure GeneralOpenAIRequest where
  model : String
  messages : List Message
  prompt : String
  input : Option String
  instruction : String
  maxTokens : Nat
  maxCompletionTokens : Nat
  stream : Bool
deriving DecidableEq, Repr

/-- getAndValidateTextRequest, src/relay/relay-text.go lines 31-71:
default the model for moderations and embeddings, reject a max-tokens
value above math.MaxInt32 / 2 (integer division, 2^30 - 1), reject an
empty model, then apply the per-mode payload requirement.  On success the
request, with defaults applied, is returned (the source also copies the
stream flag into RelayInfo). -/
def getAndValidateTextRequest (mode : RelayMode) (pathModelParam : String) (req0 : GeneralOpenAIRequest) : Except String GeneralOpenAIRequest :=
  let req1 :=
    if mode = RelayMode.moderations ∧ req0.model = "" then
      { req0 with model := ("text-moderation-latest") }
    else req0
  let req :=
    if mode = RelayMode.embeddings ∧ req1.model = "" then
      { req1 with model := pathModelParam }
    else req1
  if req.maxTokens > 2147483647 / 2 then
    Except.error ("max_tokens is invalid")
  else if req.model = "" then
    Except.error ("model is required")
  else
    match mode with
    | RelayMode.completions =>
      if req.prompt = "" then Except.error ("field prompt is required") else Except.ok req
    | RelayMode.chatCompletions =>
      if req.messages = [] then Except.error ("field messages is required") else Except.ok req
    | RelayMode.moderations =>
      if req.input = none ∨ req.input = some "" then Except.error ("field input is required") else Except.ok req
    | RelayMode.edits =>
      if req.instruction = "" then Except.error ("field instruction is required") else Except.ok req
    | _ => Except.ok req

/- ===================== Dify request translation ===================== -/

/-- DifyFile, src/relay/channel/dify: type, transfer mode (remote_url or
local_file), and either a URL or an upload file id. -/
structure DifyFile where
  type : String
  transferMode : String
  url : String
  uploadFileId : String
deriving DecidableEq, Repr

/-- DifyChatRequest as built by requestOpenAI2Dify: the folded query, the
collected files, the fixed user id, response mode and auto-generate-name
flag.  The inputs override map is reduced to a flag recording whether a
well-typed caller override was taken. -/
structure DifyChatRequest where
  query : String
  files : List DifyFile
  user : String
  responseMode : String
  autoGenerateName : Bool
  inputsFromOverride : Bool
deriving DecidableEq, Repr

/-- Modelled from the spec: dto.Message.StringContent is not under src/;
per the spec a message holds either string content, returned as is, or a
list of media parts, whose text parts are concatenated. -/
def stringContent : MsgContent → String
  | MsgContent.str s => s
  | MsgContent.parts ps =>
    ps.foldl (fun acc p => match p with | MediaPart.text t => acc ++ t | _ => acc) ""

/-- Modelled from the spec: dto.Message.ParseContent is not under src/;
per the spec it yields the ordered media parts, a plain string becoming a
single text part. -/
def parseContent : MsgContent → List MediaPart
  | MsgContent.str s => [MediaPart.text s]
  | MsgContent.parts ps => ps

/-- One step of the inner loop of requestOpenAI2Dify over the parsed
parts of a non-system non-assistant message (src/relay/channel/dify/relay-dify.go
lines 184-215): a text part appends one USER block to the builder, an
image part resolves to a DifyFile (remote images directly, with MIME type
defaulting to image/jpeg; local images through the upload call, given
here as the parameter upload, whose failure yields none) that is appended
to the file list when present and silently skipped otherwise. -/
def difyPartStep (upload : MediaPart → Option DifyFile) (acc : String × List DifyFile) (p : MediaPart) : String × List DifyFile :=
  match p with
  | MediaPart.text t => (acc.1 ++ ("USER: \n") ++ t ++ ("\n"), acc.2)
  | MediaPart.imageUrl url mimeType remote =>
    let file : Option DifyFile :=
      if remote then
        some { type := if mimeType = "" then ("image/jpeg") else mimeType,
               transferMode := ("remote_url"), url := url, uploadFileId := ("") }
      else upload (MediaPart.imageUrl url mimeType remote)
    match file with
    | some f => (acc.1, acc.2 ++ [f])
    | none => acc

/-- One step of the message loop of requestOpenAI2Dify (lines 173-217):
system and assistant messages append one labelled block of their string
content; every other role walks the parsed parts with difyPartStep. -/
def difyMessageStep (upload : MediaPart → Option DifyFile) (acc : String × List DifyFile) (m : Message) : String × List DifyFile :=
  if m.role = "system" then
    (acc.1 ++ ("SYSTEM: \n") ++ stringContent m.content ++ ("\n"), acc.2)
  else if m.role = "assistant" then
    (acc.1 ++ ("ASSISTANT: \n") ++ stringContent m.content ++ ("\n"), acc.2)
  else
    (parseContent m.content).foldl (difyPartStep upload) acc

/-- requestOpenAI2Dify, src/relay/channel/dify/relay-dify.go lines
150-228: fold the messages into the query builder and the file list,
take inputs from the caller override when well typed, use the fixed user
id and the hard-coded streaming response mode. -/
def requestOpenAI2Dify (upload : MediaPart → Option DifyFile) (overrideInputsOk : Bool) (messages : List Message) : DifyChatRequest :=
  let acc := messages.foldl (difyMessageStep upload) (("", []) : String × List DifyFile)
  { query := acc.1, files := acc.2,
    user := ("liujiahao10570"),
    responseMode := ("streaming"),
    autoGenerateName := true,
    inputsFromOverride := overrideInputsOk }

/-- Concatenation of a list of blocks, in order. -/
def concatBlocks : List String → String
  | [] => ""
  | b :: bs => b ++ concatBlocks bs

/-- The query block contributed by one media part: text parts give one
USER block, image parts contribute nothing to the query. -/
def difyPartBlock : MediaPart → String
  | MediaPart.text t => ("USER: \n") ++ t ++ ("\n")
  | MediaPart.imageUrl _ _ _ => ""

/-- The query block contributed by one message: its role label on its own
line followed by the content, user messages contributing one USER block
per text part in part order. -/
def difyMsgBlock (m : Message) : String :=
  if m.role = "system" then ("SYSTEM: \n") ++ stringContent m.content ++ ("\n")
  else if m.role = "assistant" then ("ASSISTANT: \n") ++ stringContent m.content ++ ("\n")
  else concatBlocks ((parseContent m.content).map difyPartBlock)

/- ===================== Dify streaming handler ===================== -/

/-- Event payload fields of DifyChunkChatCompletionResponse read by the
streaming translator: workflow id, node type and status. -/
structure DifyData where
  workflowId : String
  nodeType : String
  status : String
deriving DecidableEq, Repr

/-- Usage triple carried by the message_end metadata. -/
structure DifyUsage where
  promptTokens : Nat
  completionTokens : Nat
  totalTokens : Nat
deriving DecidableEq, Repr

/-- One decoded upstream SSE event of the Dify adapter. -/
structure DifyChunk where
  event : String
  answer : String
  data : DifyData
  metaUsage : DifyUsage
deriving DecidableEq, Repr

/-- OpenAI stream delta: optional content and optional reasoning
content. -/
structure StreamDelta where
  content : Option String
  reasoningContent : Option String
deriving DecidableEq, Repr

/-- One choice of an OpenAI stream chunk. -/
structure StreamChoice where
  delta : StreamDelta
deriving DecidableEq, Repr

/-- OpenAI-shaped stream chunk as written to the client (the created
timestamp, a wall-clock read in the source, is omitted). -/
structure StreamResp where
  object : String
  model : String
  choices : List StreamChoice
deriving DecidableEq, Repr

/-- strings.HasPrefix of the Go standard library: byte-wise prefix test,
embedded as a character-list prefix test. -/
def strHasPrefix (s p : String) : Bool := p.data.isPrefixOf s.data

/-- The exact thinking sentinel the source rewrites to an opening think
tag. -/
def thinkingSentinel : String :=
  "<details style=\"color:gray;background-color: #f8f8f8;padding: 8px;border-radius: 4px;\" open> <summary> Thinking... </summary>\n"

/-- streamResponseDify2OpenAI, src/relay/channel/dify/relay-dify.go lines
230-282: build one chunk with object chat.completion.chunk and model
dify; workflow and node events carry a reasoning delta only in debug
mode (appending the final status for the finished variants), message and
agent_message events carry the answer as content after rewriting the two
thinking sentinels, and every other event leaves the delta empty.  One
choice is always appended. -/
def streamResponseDify2OpenAI (difyDebug : Bool) (r : DifyChunk) : StreamResp :=
  let emptyDelta : StreamDelta := { content := none, reasoningContent := none }
  let choice : StreamChoice :=
    if strHasPrefix r.event ("workflow_") then
      if difyDebug then
        let text := ("Workflow: ") ++ r.data.workflowId
        let text := if r.event = "workflow_finished" then text ++ (" ") ++ r.data.status else text
        { delta := { content := none, reasoningContent := some (text ++ ("\n")) } }
      else { delta := emptyDelta }
    else if strHasPrefix r.event ("node_") then
      if difyDebug then
        let text := ("Node: ") ++ r.data.nodeType
        let text := if r.event = "node_finished" then text ++ (" ") ++ r.data.status else text
        { delta := { content := none, reasoningContent := some (text ++ ("\n")) } }
      else { delta := emptyDelta }
    else if r.event = "message" ∨ r.event = "agent_message" then
      let answer :=
        if r.answer = thinkingSentinel then ("<think>")
        else if r.answer = "</details>" then ("</think>")
        else r.answer
      { delta := { content := some answer, reasoningContent := none } }
    else { delta := emptyDelta }
  { object := ("chat.completion.chunk"), model := ("dify"), choices := [choice] }

/-- One raw SSE data payload handed to the scanner callback: either bytes
that fail to decode as JSON, or a decoded Dify chunk. -/
inductive RawItem where
  | malformed
  | ok (chunk : DifyChunk)
deriving DecidableEq, Repr

/-- Scanner state of difyStreamHandler: the accumulated forwarded text,
the captured usage, the node token counter and the chunks written to the
client. -/
structure HState where
  responseText : String
  usage : DifyUsage
  nodeToken : Nat
  writes : List StreamResp
deriving DecidableEq, Repr

/-- Initial scanner state: empty text, zero usage, zero node tokens,
nothing written. -/
def initHState : HState :=
  { responseText := "", usage := { promptTokens := 0, completionTokens := 0, totalTokens := 0 },
    nodeToken := 0, writes := [] }

/-- The scanner loop of difyStreamHandler, src/relay/channel/dify/relay-dify.go
lines 292-339: a payload that fails to decode is logged and skipped
(callback returns true); message_end captures the metadata usage and
stops the scan; error stops the scan; every other event is translated,
its content delta appended to the accumulated text, the node token
counter bumped when the delta carries reasoning content, and the chunk
written to the client before continuing. -/
def scanLoop (difyDebug : Bool) (st : HState) : List RawItem → HState
  | [] => st
  | RawItem.malformed :: rest => scanLoop difyDebug st rest
  | RawItem.ok ch :: rest =>
    if ch.event = "message_end" then { st with usage := ch.metaUsage }
    else if ch.event = "error" then st
    else
      let resp := streamResponseDify2OpenAI difyDebug ch
      let st1 :=
        match resp.choices with
        | [] => st
        | c :: _ =>
          let contentStr := c.delta.content.getD ""
          let st2 := { st with responseText := st.responseText ++ contentStr }
          match c.delta.reasoningContent with
          | some _ => { st2 with nodeToken := st2.nodeToken + 1 }
          | none => st2
      scanLoop difyDebug { st1 with writes := st1.writes ++ [resp] } rest

/-- Result of difyStreamHandler: the returned usage plus the final
scanner observables. -/
structure HandlerResult where
  usage : DifyUsage
  writes : List StreamResp
  responseText : String
  nodeToken : Nat
deriving DecidableEq, Repr

/-- Usage finalization of difyStreamHandler, lines 346-354: when the
captured usage has zero total tokens, synthesize prompt tokens from
RelayInfo, completion tokens from the token counter over the accumulated
text (the counter, service.CountTextToken under the stable fallback model
name, is the parameter counter), and total as their sum; then add the
node token count to the completion tokens. -/
def synthesizeUsage (counter : String → Nat) (infoPromptTokens : Nat) (st : HState) : HandlerResult :=
  let u0 :=
    if st.usage.totalTokens = 0 then
      { promptTokens := infoPromptTokens,
        completionTokens := counter st.responseText,
        totalTokens := infoPromptTokens + counter st.responseText }
    else st.usage
  { usage := { u0 with completionTokens := u0.completionTokens + st.nodeToken },
    writes := st.writes, responseText := st.responseText, nodeToken := st.nodeToken }

/-- difyStreamHandler, src/relay/channel/dify/relay-dify.go lines
284-356: run the scanner from the initial state over the upstream
payloads, then finalize the usage. -/
def difyStreamHandler (difyDebug : Bool) (counter : String → Nat) (infoPromptTokens : Nat) (items : List RawItem) : HandlerResult :=
  synthesizeUsage counter infoPromptTokens (scanLoop difyDebug initHState items)

/- ===================== Helper lemmas ===================== -/

theorem concatBlocks_append (xs ys : List String) :
    concatBlocks (xs ++ ys) = concatBlocks xs ++ concatBlocks ys := by
  induction xs with
  | nil => simp [concatBlocks, String.empty_append]
  | cons x rest ih => simp [concatBlocks, ih, String.append_assoc]

theorem foldl_difyPartStep_query (upload : MediaPart → Option DifyFile)
    (ps : List MediaPart) (acc : String × List DifyFile) :
    (ps.foldl (difyPartStep upload) acc).1 = acc.1 ++ concatBlocks (ps.map difyPartBlock) := by
  induction ps generalizing acc with
  | nil => simp [concatBlocks, String.append_empty]
  | cons p rest ih =>
    cases p with
    | text t =>
      simp only [List.foldl_cons, difyPartStep, List.map_cons, concatBlocks, difyPartBlock]
      rw [ih]
      simp [String.append_assoc]
    | imageUrl url mt remote =>
      simp only [List.foldl_cons, List.map_cons, concatBlocks, difyPartBlock]
      have hfst : (difyPartStep upload acc (MediaPart.imageUrl url mt remote)).1 = acc.1 := by
        unfold difyPartStep
        cases hf : (if remote then
            some { type := if mt = "" then ("image/jpeg") else mt,
                   transferMode := ("remote_url"), url := url, uploadFileId := ("") }
          else upload (MediaPart.imageUrl url mt remote) : Option DifyFile) with
        | none => simp [hf]
        | some f => simp [hf]
      rw [ih, hfst, String.empty_append]

theorem difyMessageStep_query (upload : MediaPart → Option DifyFile)
    (acc : String × List DifyFile) (m : Message) :
    (difyMessageStep upload acc m).1 = acc.1 ++ difyMsgBlock m := by
  unfold difyMessageStep difyMsgBlock
  split_ifs with h1 h2
  · simp [String.append_assoc]
  · simp [String.append_assoc]
  · exact foldl_difyPartStep_query upload _ acc

theorem foldl_difyMessageStep_query (upload : MediaPart → Option DifyFile)
    (ms : List Message) (acc : String × List DifyFile) :
    (ms.foldl (difyMessageStep upload) acc).1 = acc.1 ++ concatBlocks (ms.map difyMsgBlock) := by
  induction ms generalizing acc with
  | nil => simp [concatBlocks, String.append_empty]
  | cons m rest ih =>
    simp only [List.foldl_cons, List.map_cons, concatBlocks]
    rw [ih, difyMessageStep_query, String.append_assoc]

/- ===================== Claim theorems ===================== -/

/-- Claim C8: the Workflow adapter folds the messages into a single query
string that preserves message order, each message contributing its block
prefixed with its role label (difyMsgBlock: SYSTEM, ASSISTANT, USER, each
label on its own line), a user message with multi-part content
contributing one USER block per text part in part order; appending a
message appends exactly its block. -/
theorem c8_query_preserves_order (upload : MediaPart → Option DifyFile) (inputsOk : Bool) :
    (∀ messages : List Message,
      (requestOpenAI2Dify upload inputsOk messages).query =
        concatBlocks (messages.map difyMsgBlock)) ∧
    (∀ (messages : List Message) (m : Message),
      (requestOpenAI2Dify upload inputsOk (messages ++ [m])).query =
        (requestOpenAI2Dify upload inputsOk messages).query ++ difyMsgBlock m) := by
  have hq : ∀ messages : List Message,
      (requestOpenAI2Dify upload inputsOk messages).query =
        concatBlocks (messages.map difyMsgBlock) := by
    intro ms
    have h := foldl_difyMessageStep_query upload ms (("", []) : String × List DifyFile)
    simpa [requestOpenAI2Dify, String.empty_append] using h
  refine ⟨hq, ?_⟩
  intro ms m
  rw [hq, hq, List.map_append, concatBlocks_append]
  simp [concatBlocks, String.append_empty]

/-- Claim C10: a raw SSE payload that fails to decode as JSON is skipped
by the scanner of difyStreamHandler: the scan continues over the
remaining events from an unchanged state, so no chunk is written for it
and the accumulated text, node token counter and captured usage are
unchanged. -/
theorem c10_malformed_payload_skipped (difyDebug : Bool) (st : HState) (rest : List RawItem) :
    scanLoop difyDebug st (RawItem.malformed :: rest) = scanLoop difyDebug st rest := rfl

/-- Claim C9 counterexample: the claim says an SSE event whose name is
unrecognized (here the event ping) writes no chunk to the client, but the
source calls ObjectData outside the recognition branches, so a chunk with
an empty delta is written. -/
theorem c9_counterexample :
    (difyStreamHandler false (fun _ => 0) 0
      [RawItem.ok { event := ("ping"), answer := (""),
                    data := { workflowId := (""), nodeType := (""), status := ("") },
                    metaUsage := { promptTokens := 0, completionTokens := 0, totalTokens := 0 } }]).writes
    ≠ [] := by decide

/-- Claim C9 amended: for every upstream SSE event whose name is not
message, agent_message, workflow_*, node_*, message_end or error, the
streaming handler leaves the accumulated text, the node token counter and
the captured usage unchanged, but does write one SSE chunk with an empty
delta for it before continuing the scan. -/
theorem c9_unrecognized_event_empty_chunk (difyDebug : Bool) (st : HState)
    (rest : List RawItem) (ch : DifyChunk)
    (h1 : ch.event ≠ "message_end") (h2 : ch.event ≠ "error")
    (h3 : ch.event ≠ "message") (h4 : ch.event ≠ "agent_message")
    (h5 : strHasPrefix ch.event ("workflow_") = false)
    (h6 : strHasPrefix ch.event ("node_") = false) :
    scanLoop difyDebug st (RawItem.ok ch :: rest) =
      scanLoop difyDebug
        { st with writes := st.writes ++
            [{ object := ("chat.completion.chunk"), model := ("dify"),
               choices := [{ delta := { content := none, reasoningContent := none } }] }] }
        rest := by
  have hw : ¬ (strHasPrefix ch.event ("workflow_") = true) := by
    rw [h5]; exact Bool.false_ne_true
  have hn : ¬ (strHasPrefix ch.event ("node_") = true) := by
    rw [h6]; exact Bool.false_ne_true
  have hor : ¬ (ch.event = "message" ∨ ch.event = "agent_message") := not_or.mpr ⟨h3, h4⟩
  have hresp : streamResponseDify2OpenAI difyDebug ch =
      { object := ("chat.completion.chunk"), model := ("dify"),
        choices := [{ delta := { content := none, reasoningContent := none } }] } := by
    simp only [streamResponseDify2OpenAI]
    rw [if_neg hw, if_neg hn, if_neg hor]
  have hstep : scanLoop difyDebug st (RawItem.ok ch :: rest) =
      (if ch.event = "message_end" then { st with usage := ch.metaUsage }
       else if ch.event = "error" then st
       else
         let resp := streamResponseDify2OpenAI difyDebug ch
         let st1 :=
           match resp.choices with
           | [] => st
           | c :: _ =>
             let contentStr := c.delta.content.getD ""
             let st2 := { st with responseText := st.responseText ++ contentStr }
             match c.delta.reasoningContent with
             | some _ => { st2 with nodeToken := st2.nodeToken + 1 }
             | none => st2
         scanLoop difyDebug { st1 with writes := st1.writes ++ [resp] } rest) := rfl
  rw [hstep, if_neg h1, if_neg h2, hresp]
  simp only [Option.getD_none, String.append_empty]

/-- Claim C9 witness: the amended theorem applied to a concrete ping
event from the initial state. -/
theorem c9_witness :
    scanLoop true initHState
      [RawItem.ok { event := ("ping2"), answer := ("x"),
                    data := { workflowId := (""), nodeType := (""), status := ("") },
                    metaUsage := { promptTokens := 0, completionTokens := 0, totalTokens := 0 } }] =
      scanLoop true
        { initHState with writes := initHState.writes ++
            [{ object := ("chat.completion.chunk"), model := ("dify"),
               choices := [{ delta := { content := none, reasoningContent := none } }] }] }
        [] :=
  c9_unrecognized_event_empty_chunk true initHState []
    { event := ("ping2"), answer := ("x"),
      data := { workflowId := (""), nodeType := (""), status := ("") },
      metaUsage := { promptTokens := 0, completionTokens := 0, totalTokens := 0 } }
    (by decide) (by decide) (by decide) (by decide) (by decide) (by decide)

/-- Claim C6 counterexample: with debug mode on, one node event and no
message_end, the synthesized usage has prompt 5 and completion 1 (the
node token), but total 5: the node token count is added to the completion
tokens only after the total was computed, so total-tokens is not the sum
the claim states. -/
theorem c6_counterexample :
    (difyStreamHandler true (fun _ => 0) 5
      [RawItem.ok { event := ("node_started"), answer := (""),
                    data := { workflowId := (""), nodeType := ("start"), status := ("") },
                    metaUsage := { promptTokens := 0, completionTokens := 0, totalTokens := 0 } }]).usage.promptTokens = 5 ∧
    (difyStreamHandler true (fun _ => 0) 5
      [RawItem.ok { event := ("node_started"), answer := (""),
                    data := { workflowId := (""), nodeType := ("start"), status := ("") },
                    metaUsage := { promptTokens := 0, completionTokens := 0, totalTokens := 0 } }]).usage.completionTokens = 1 ∧
    (difyStreamHandler true (fun _ => 0) 5
      [RawItem.ok { event := ("node_started"), answer := (""),
                    data := { workflowId := (""), nodeType := ("start"), status := ("") },
                    metaUsage := { promptTokens := 0, completionTokens := 0, totalTokens := 0 } }]).usage.totalTokens = 5 ∧
    ¬ (difyStreamHandler true (fun _ => 0) 5
      [RawItem.ok { event := ("node_started"), answer := (""),
                    data := { workflowId := (""), nodeType := ("start"), status := ("") },
                    metaUsage := { promptTokens := 0, completionTokens := 0, totalTokens := 0 } }]).usage.totalTokens =
      (difyStreamHandler true (fun _ => 0) 5
      [RawItem.ok { event := ("node_started"), answer := (""),
                    data := { workflowId := (""), nodeType := ("start"), status := ("") },
                    metaUsage := { promptTokens := 0, completionTokens := 0, totalTokens := 0 } }]).usage.promptTokens +
      (difyStreamHandler true (fun _ => 0) 5
      [RawItem.ok { event := ("node_started"), answer := (""),
                    data := { workflowId := (""), nodeType := ("start"), status := ("") },
                    metaUsage := { promptTokens := 0, completionTokens := 0, totalTokens := 0 } }]).usage.completionTokens := by
  decide

/-- Claim C6 amended: when no message_end event delivered a usage with
nonzero total tokens, the returned usage has prompt tokens from
RelayInfo, completion tokens equal to the token counter over the
accumulated forwarded text plus the node token count, and total tokens
equal to prompt plus the counter value only (the node tokens are added to
the completion tokens after the total was computed and are not part of
the total). -/
theorem c6_synthesized_usage (difyDebug : Bool) (counter : String → Nat)
    (infoPromptTokens : Nat) (items : List RawItem)
    (h : (scanLoop difyDebug initHState items).usage.totalTokens = 0) :
    (difyStreamHandler difyDebug counter infoPromptTokens items).usage.promptTokens = infoPromptTokens ∧
    (difyStreamHandler difyDebug counter infoPromptTokens items).usage.completionTokens =
      counter (scanLoop difyDebug initHState items).responseText +
        (scanLoop difyDebug initHState items).nodeToken ∧
    (difyStreamHandler difyDebug counter infoPromptTokens items).usage.totalTokens =
      infoPromptTokens + counter (scanLoop difyDebug initHState items).responseText := by
  unfold difyStreamHandler synthesizeUsage
  simp [h]

/-- Claim C6 witness: the amended theorem applied to the empty upstream
stream with the length function as token counter. -/
theorem c6_witness :
    (difyStreamHandler false (fun s => s.length) 3 []).usage.promptTokens = 3 ∧
    (difyStreamHandler false (fun s => s.length) 3 []).usage.totalTokens = 3 := by
  have h := c6_synthesized_usage false (fun s => s.length) 3 [] (by decide)
  refine ⟨h.1, ?_⟩
  rw [h.2.2]
  decide

/-- A well-formed chat request carrying the max-tokens value 2^30, used
to exercise the validator boundary. -/
def c7BoundaryReq : GeneralOpenAIRequest :=
  { model := ("gpt-4"),
    messages := [{ role := ("user"), content := MsgContent.str ("hi") }],
    prompt := (""), input := none, instruction := (""),
    maxTokens := 1073741824, maxCompletionTokens := 0, stream := false }

/-- The same request with max-tokens 2^30 - 1, the largest accepted
value. -/
def c7AcceptedReq : GeneralOpenAIRequest :=
  { c7BoundaryReq with maxTokens := 1073741823 }

/-- Claim C7 counterexample: the claim says max-tokens equal to 2^30 is
accepted, but the source rejects every value above math.MaxInt32 / 2,
which is 2^30 - 1 by integer division, so the otherwise valid request
with max-tokens 2^30 is rejected as an invalid max_tokens value. -/
theorem c7_counterexample :
    getAndValidateTextRequest RelayMode.chatCompletions ("") c7BoundaryReq =
      Except.error ("max_tokens is invalid") := rfl

/-- Claim C7 amended: the validator accepts max-tokens values up to
2^30 - 1 and rejects every value of at least 2^30 (in particular 2^30
itself) with the invalid max_tokens error; it also rejects an empty
model. -/
theorem c7_max_tokens_boundary (p : String) (req : GeneralOpenAIRequest) :
    (2 ^ 30 ≤ req.maxTokens →
      getAndValidateTextRequest RelayMode.chatCompletions p req =
        Except.error ("max_tokens is invalid")) ∧
    (req.maxTokens < 2 ^ 30 → req.model ≠ "" → req.messages ≠ [] →
      getAndValidateTextRequest RelayMode.chatCompletions p req = Except.ok req) ∧
    (req.maxTokens < 2 ^ 30 → req.model = "" →
      getAndValidateTextRequest RelayMode.chatCompletions p req =
        Except.error ("model is required")) := by
  refine ⟨?_, ?_, ?_⟩
  · intro h
    unfold getAndValidateTextRequest
    simp only [reduceCtorEq, false_and, if_false]
    rw [if_pos (by omega)]
  · intro h hm hmsg
    unfold getAndValidateTextRequest
    simp only [reduceCtorEq, false_and, if_false]
    rw [if_neg (by omega), if_neg hm, if_neg hmsg]
  · intro h hm
    unfold getAndValidateTextRequest
    simp only [reduceCtorEq, false_and, if_false]
    rw [if_neg (by omega), if_pos hm]

/-- Claim C7 witness: the amended theorem applied at the boundary: the
request with max-tokens 2^30 - 1 is accepted and the request with
max-tokens 2^30 is rejected. -/
theorem c7_witness :
    getAndValidateTextRequest RelayMode.chatCompletions ("") c7AcceptedReq =
      Except.ok c7AcceptedReq ∧
    getAndValidateTextRequest RelayMode.chatCompletions ("") c7BoundaryReq =
      Except.error ("max_tokens is invalid") := by
  constructor
  · exact (c7_max_tokens_boundary ("") c7AcceptedReq).2.1 (by decide) (by decide) (by decide)
  · exact (c7_max_tokens_boundary ("") c7BoundaryReq).1 (by decide)

theorem preConsume_success (u pre : Int) (unl : Bool) (tq : Int) (L : Ledger)
    (h1 : ¬ u ≤ 0) (h2 : ¬ u - pre < 0) :
    preConsumeQuota u pre unl tq L =
      (if 0 < trustedPreQuota u pre unl tq then
        (PreConsumeOutcome.ok (trustedPreQuota u pre unl tq),
          { userBalance := L.userBalance - trustedPreQuota u pre unl tq,
            tokenBalance := L.tokenBalance - trustedPreQuota u pre unl tq })
      else (PreConsumeOutcome.ok (trustedPreQuota u pre unl tq), L)) := by
  simp only [preConsumeQuota]
  rw [if_neg h1, if_neg h2]

theorem trustedPreQuota_trusted (u pre : Int) (unl : Bool) (tq : Int)
    (h3 : 100 * pre < u) (h4 : unl = true ∨ 100 * pre < tq) :
    trustedPreQuota u pre unl tq = 0 := by
  unfold trustedPreQuota
  rw [if_pos h3]
  cases unl with
  | true => rfl
  | false =>
    have h5 : 100 * pre < tq := h4.resolve_left (by simp)
    simp [h5]

theorem trustedPreQuota_untrusted (u pre : Int) (unl : Bool) (tq : Int)
    (h : ¬ (100 * pre < u ∧ (unl = true ∨ 100 * pre < tq))) :
    trustedPreQuota u pre unl tq = pre := by
  unfold trustedPreQuota
  by_cases h3 : 100 * pre < u
  · rw [if_pos h3]
    cases unl with
    | true => exact absurd ⟨h3, Or.inl rfl⟩ h
    | false =>
      have h5 : ¬ 100 * pre < tq := fun hl => h ⟨h3, Or.inr hl⟩
      simp [h5]
  · rw [if_neg h3]

/-- Claim C2: with the external store calls succeeding and a non-negative
pre-consume amount, pre-consume fails with the 403 insufficient quota
error exactly when the user balance is at most 0 or balance minus the
pre-consume amount is negative; on success, when the balance exceeds 100
times the amount and the token is unlimited or its own quota exceeds 100
times the amount, the pre-consumed amount becomes 0 and the ledger is
untouched; in every other successful case both balances are debited by
the pre-consume amount. -/
theorem c2_preconsume_cases (u pre : Int) (unl : Bool) (tq : Int) (L : Ledger)
    (hpre : 0 ≤ pre) :
    ((preConsumeQuota u pre unl tq L).1 =
        PreConsumeOutcome.fail ("insufficient_user_quota") 403 ↔
      (u ≤ 0 ∨ u - pre < 0)) ∧
    (¬ u ≤ 0 → ¬ u - pre < 0 →
      100 * pre < u → (unl = true ∨ 100 * pre < tq) →
      preConsumeQuota u pre unl tq L = (PreConsumeOutcome.ok 0, L)) ∧
    (¬ u ≤ 0 → ¬ u - pre < 0 →
      ¬ (100 * pre < u ∧ (unl = true ∨ 100 * pre < tq)) →
      preConsumeQuota u pre unl tq L =
        (PreConsumeOutcome.ok pre,
          { userBalance := L.userBalance - pre, tokenBalance := L.tokenBalance - pre })) := by
  refine ⟨⟨?_, ?_⟩, ?_, ?_⟩
  · intro h
    by_contra hc
    push_neg at hc
    rw [preConsume_success u pre unl tq L (by omega) (by omega)] at h
    split at h <;> simp at h
  · intro h
    unfold preConsumeQuota
    rcases h with h | h
    · rw [if_pos h]
    · by_cases h1 : u ≤ 0
      · rw [if_pos h1]
      · rw [if_neg h1, if_pos h]
  · intro h1 h2 h3 h4
    rw [preConsume_success u pre unl tq L h1 h2, trustedPreQuota_trusted u pre unl tq h3 h4]
    simp
  · intro h1 h2 h
    rw [preConsume_success u pre unl tq L h1 h2, trustedPreQuota_untrusted u pre unl tq h]
    by_cases hp : 0 < pre
    · rw [if_pos hp]
    · have h0 : pre = 0 := by omega
      subst h0
      simp

/-- Claim C2 witness: the theorem applied at two concrete stores, a
debiting case (balance 50, pre-consume 10, limited token with quota
2000) and a trusted case (balance 5000, unlimited token). -/
theorem c2_witness :
    preConsumeQuota 50 10 false 2000 { userBalance := 40, tokenBalance := 60 } =
      (PreConsumeOutcome.ok 10, { userBalance := 30, tokenBalance := 50 }) ∧
    preConsumeQuota 5000 10 true 0 { userBalance := 40, tokenBalance := 60 } =
      (PreConsumeOutcome.ok 0, { userBalance := 40, tokenBalance := 60 }) := by
  constructor
  · exact (c2_preconsume_cases 50 10 false 2000
      { userBalance := 40, tokenBalance := 60 } (by decide)).2.2
      (by decide) (by decide) (by decide)
  · exact (c2_preconsume_cases 5000 10 true 0
      { userBalance := 40, tokenBalance := 60 } (by decide)).2.1
      (by decide) (by decide) (by decide) (by decide)

/-- Claim C1: for every request in which pre-consume debits a positive
amount X from the user and token ledgers and the pipeline then errors
before settlement, the deferred refund hook credits exactly X back, so
the net ledger effect on the user and on the token is 0. -/
theorem c1_refund_restores_ledger (u pre : Int) (unl : Bool) (tq : Int)
    (L L2 : Ledger) (X : Int) (hX : 0 < X)
    (h : preConsumeQuota u pre unl tq L = (PreConsumeOutcome.ok X, L2)) :
    returnPreConsumedQuota X L2 = L := by
  simp only [preConsumeQuota] at h
  split at h
  · rw [Prod.mk.injEq] at h
    exact absurd h.1 (by simp)
  · split at h
    · rw [Prod.mk.injEq] at h
      exact absurd h.1 (by simp)
    · split at h
      next h3 =>
        rw [Prod.mk.injEq] at h
        obtain ⟨ha, hb⟩ := h
        injection ha with ht
        subst hb
        rw [ht]
        unfold returnPreConsumedQuota
        rw [if_pos (show X ≠ 0 by omega)]
        obtain ⟨lu, lt⟩ := L
        simp only [Ledger.mk.injEq]
        constructor <;> omega
      next h3 =>
        rw [Prod.mk.injEq] at h
        obtain ⟨ha, _⟩ := h
        injection ha with ht
        omega

/-- Claim C1 witness: a concrete request debiting 10 from both ledgers;
the refund hook restores the original balances. -/
theorem c1_witness :
    returnPreConsumedQuota 10 { userBalance := 30, tokenBalance := 50 } =
      { userBalance := 40, tokenBalance := 60 } :=
  c1_refund_restores_ledger 50 10 false 500
    { userBalance := 40, tokenBalance := 60 }
    { userBalance := 30, tokenBalance := 50 } 10 (by decide) (by decide)

theorem postConsume_quotaCalculated (pd : PriceData) (inp : SettleInput) :
    (postConsumeQuota pd inp).quotaCalculated = roundDec (quotaCalculateDecimal pd inp) := by
  simp only [postConsumeQuota]
  split <;> rfl

theorem quotaCalc_ratio (pd : PriceData) (inp : SettleInput)
    (hup : pd.usePrice = false) (hw : inp.webSearchQuota = 0) (hf : inp.fileSearchQuota = 0) :
    quotaCalculateDecimal pd inp =
      (if pd.modelRatio * pd.groupRatio ≠ 0 ∧ rawRatioQuota pd inp ≤ 0 then 1
       else rawRatioQuota pd inp) := by
  simp [quotaCalculateDecimal, hup, hw, hf]

theorem specQuotaFormula_eq_raw (pd : PriceData) (inp : SettleInput) :
    specQuotaFormula pd inp = rawRatioQuota pd inp := by
  simp only [specQuotaFormula, rawRatioQuota]
  split_ifs <;> ring

theorem roundDec_nonneg_eq (q : ℚ) (n : ℤ) (h0 : 0 ≤ q)
    (h1 : (n : ℚ) ≤ q + 1 / 2) (h2 : q + 1 / 2 < n + 1) :
    roundDec q = n := by
  unfold roundDec
  rw [if_pos h0]
  exact Int.floor_eq_iff.mpr ⟨h1, h2⟩

theorem roundDec_one : roundDec 1 = 1 :=
  roundDec_nonneg_eq 1 1 (by norm_num) (by norm_num) (by norm_num)

/-- Claim C3: for a ratio-priced settlement (use-price false, no built-in
tool calls), the quota computed by the pricing arithmetic and rounded at
line 460 equals the spec formula ((prompt - cached) + cached * cache-ratio
+ completion * completion-ratio) * model-ratio * group-ratio, with the
prompt part replaced by (prompt - image) + image * image-ratio when image
tokens are present, computed exactly over rationals and rounded to an
integer at the end, except that a nonzero ratio with a non-positive
pre-round product yields 1.  (The zero-token override that follows at
line 474 is covered by claim C5.) -/
theorem c3_ratio_priced_quota (pd : PriceData) (inp : SettleInput)
    (hup : pd.usePrice = false) (hw : inp.webSearchQuota = 0) (hf : inp.fileSearchQuota = 0) :
    (postConsumeQuota pd inp).quotaCalculated =
      if pd.modelRatio * pd.groupRatio ≠ 0 ∧ specQuotaFormula pd inp ≤ 0 then 1
      else roundDec (specQuotaFormula pd inp) := by
  rw [postConsume_quotaCalculated, quotaCalc_ratio pd inp hup hw hf,
    ← specQuotaFormula_eq_raw]
  split_ifs with hc
  · exact roundDec_one
  · rfl

/-- Pricing data of the concrete ratio-priced settlement used to witness
claim C3. -/
def c3Pd : PriceData :=
  { modelRatio := 2, groupRatio := 1, completionRatio := 3, cacheRatio := 1 / 2,
    imageRatio := 1, modelPrice := 0, usePrice := false }

/-- Settlement input of the concrete ratio-priced settlement used to
witness claim C3: 10 prompt tokens of which 2 cached, 5 completion
tokens. -/
def c3Inp : SettleInput :=
  { promptTokens := 10, completionTokens := 5, cacheTokens := 2, imageTokens := 0,
    preConsumedQuota := 0, webSearchQuota := 0, fileSearchQuota := 0,
    quotaPerUnit := 1, logBase := ("") }

/-- Claim C3 witness: the theorem applied at the concrete settlement:
((10 - 2) + 2 * (1 / 2) + 5 * 3) * 2 * 1 = 48. -/
theorem c3_witness : (postConsumeQuota c3Pd c3Inp).quotaCalculated = 48 := by
  have h := c3_ratio_priced_quota c3Pd c3Inp rfl rfl rfl
  rw [h]
  have hs : specQuotaFormula c3Pd c3Inp = 48 := by
    norm_num [specQuotaFormula, c3Pd, c3Inp]
  rw [hs, if_neg (fun hc => absurd hc.2 (by norm_num))]
  exact roundDec_nonneg_eq 48 48 (by norm_num) (by norm_num) (by norm_num)

/-- Pricing data with model ratio 1/10 used by the counterexample of
claim C4. -/
def c4Pd : PriceData :=
  { modelRatio := 1 / 10, groupRatio := 1, completionRatio := 1, cacheRatio := 1,
    imageRatio := 1, modelPrice := 0, usePrice := false }

/-- Settlement input with one prompt token used by claim C4. -/
def c4Inp : SettleInput :=
  { promptTokens := 1, completionTokens := 0, cacheTokens := 0, imageTokens := 0,
    preConsumedQuota := 0, webSearchQuota := 0, fileSearchQuota := 0,
    quotaPerUnit := 1, logBase := ("") }

/-- Claim C4 counterexample: a ratio-priced settlement with nonzero ratio
1/10 and one counted token yields the pre-round product 1/10, which is
positive (so the clamp at line 450 does not fire) but rounds to 0, so the
final charged quota is 0, not at least 1 as the claim states. -/
theorem c4_counterexample :
    c4Pd.usePrice = false ∧
    ¬ c4Pd.modelRatio * c4Pd.groupRatio = 0 ∧
    (postConsumeQuota c4Pd c4Inp).totalTokens = 1 ∧
    (postConsumeQuota c4Pd c4Inp).quota = 0 := by
  refine ⟨rfl, by norm_num [c4Pd], rfl, ?_⟩
  have hq : (postConsumeQuota c4Pd c4Inp).quota =
      roundDec (quotaCalculateDecimal c4Pd c4Inp) := rfl
  have hcalc : quotaCalculateDecimal c4Pd c4Inp = 1 / 10 := by
    norm_num [quotaCalculateDecimal, rawRatioQuota, c4Pd, c4Inp]
  rw [hq, hcalc]
  exact roundDec_nonneg_eq (1 / 10) 0 (by norm_num) (by norm_num) (by norm_num)

/-- Claim C4 amended: for a ratio-priced settlement with nonzero ratio
and at least one counted token, the final charged quota is at least 1
whenever the pre-round product is non-positive (the clamp fires) or at
least one half (the rounding reaches 1); a product strictly between 0 and
one half rounds to a quota of 0. -/
theorem c4_min_charge (pd : PriceData) (inp : SettleInput)
    (hup : pd.usePrice = false) (hw : inp.webSearchQuota = 0) (hf : inp.fileSearchQuota = 0)
    (htok : ¬ inp.promptTokens + inp.completionTokens = 0)
    (hr : pd.modelRatio * pd.groupRatio ≠ 0)
    (hq : specQuotaFormula pd inp ≤ 0 ∨ 1 / 2 ≤ specQuotaFormula pd inp) :
    1 ≤ (postConsumeQuota pd inp).quota := by
  have hquota : (postConsumeQuota pd inp).quota = roundDec (quotaCalculateDecimal pd inp) := by
    simp only [postConsumeQuota]
    rw [if_neg htok]
  rw [hquota, quotaCalc_ratio pd inp hup hw hf, ← specQuotaFormula_eq_raw]
  rcases hq with hq | hq
  · rw [if_pos ⟨hr, hq⟩, roundDec_one]
  · have hpos : ¬ (pd.modelRatio * pd.groupRatio ≠ 0 ∧ specQuotaFormula pd inp ≤ 0) := by
      intro hc
      linarith [hc.2]
    rw [if_neg hpos]
    unfold roundDec
    rw [if_pos (by linarith : (0 : ℚ) ≤ specQuotaFormula pd inp)]
    have h1 : (1 : ℚ) ≤ specQuotaFormula pd inp + 1 / 2 := by linarith
    exact Int.le_floor.mpr (by exact_mod_cast h1)

/-- Pricing data with all ratios 1 used by the witness of claim C4. -/
def c4wPd : PriceData :=
  { modelRatio := 1, groupRatio := 1, completionRatio := 1, cacheRatio := 1,
    imageRatio := 1, modelPrice := 0, usePrice := false }

/-- Claim C4 witness: the amended theorem applied to one prompt token at
ratio 1: the product is 1 and the charge is at least 1. -/
theorem c4_witness : 1 ≤ (postConsumeQuota c4wPd c4Inp).quota :=
  c4_min_charge c4wPd c4Inp rfl rfl rfl (by decide) (by norm_num [c4wPd])
    (Or.inr (by norm_num [specQuotaFormula, c4wPd, c4Inp]))

/-- Claim C5: when prompt plus completion tokens is 0 the settlement
forces the quota to 0, still emits the consumption log row with the
upstream-timeout annotation appended, and hands the negated pre-consumed
amount to the ledger posting, so the token balance that was debited by
the pre-consumed amount is fully restored (net token ledger effect 0). -/
theorem c5_zero_token_guard (pd : PriceData) (inp : SettleInput) (tokenBalance : Int)
    (h : inp.promptTokens + inp.completionTokens = 0) :
    (postConsumeQuota pd inp).quota = 0 ∧
    (postConsumeQuota pd inp).logEmitted = true ∧
    (postConsumeQuota pd inp).logContent = inp.logBase ++ ("（可能是上游超时）") ∧
    applyQuotaDelta (postConsumeQuota pd inp).quotaDelta (tokenBalance - inp.preConsumedQuota)
      = tokenBalance := by
  have hpost : postConsumeQuota pd inp =
      { quotaCalculated := roundDec (quotaCalculateDecimal pd inp), quota := 0,
        totalTokens := inp.promptTokens + inp.completionTokens,
        logEmitted := true,
        logContent := inp.logBase ++ ("（可能是上游超时）"),
        userUsedQuotaUpdated := false,
        quotaDelta := 0 - inp.preConsumedQuota } := by
    simp only [postConsumeQuota]
    rw [if_pos h]
  have hd : (postConsumeQuota pd inp).quotaDelta = 0 - inp.preConsumedQuota := by
    rw [hpost]
  refine ⟨by rw [hpost], by rw [hpost], by rw [hpost], ?_⟩
  rw [hd]
  unfold applyQuotaDelta
  by_cases hp : inp.preConsumedQuota = 0
  · rw [if_neg (show ¬ (0 - inp.preConsumedQuota ≠ 0) by omega)]
    omega
  · rw [if_pos (show (0 - inp.preConsumedQuota ≠ 0) by omega)]
    omega

/-- Settlement input with zero tokens and pre-consumed quota 7 used by
the witness of claim C5. -/
def c5Inp : SettleInput :=
  { promptTokens := 0, completionTokens := 0, cacheTokens := 0, imageTokens := 0,
    preConsumedQuota := 7, webSearchQuota := 0, fileSearchQuota := 0,
    quotaPerUnit := 1, logBase := ("base") }

/-- Pricing data used by the witness of claim C5. -/
def c5Pd : PriceData :=
  { modelRatio := 1, groupRatio := 1, completionRatio := 1, cacheRatio := 1,
    imageRatio := 1, modelPrice := 0, usePrice := false }

/-- Claim C5 witness: the theorem applied to a settlement with zero
tokens and pre-consumed quota 7 against a token balance of 100. -/
theorem c5_witness :
    (postConsumeQuota c5Pd c5Inp).quota = 0 ∧
    (postConsumeQuota c5Pd c5Inp).logEmitted = true ∧
    (postConsumeQuota c5Pd c5Inp).logContent = c5Inp.logBase ++ ("（可能是上游超时）") ∧
    applyQuotaDelta (postConsumeQuota c5Pd c5Inp).quotaDelta (100 - c5Inp.preConsumedQuota)
      = 100 :=
  c5_zero_token_guard c5Pd c5Inp 100 (by decide)
